import Mathlib

set_option autoImplicit false
set_option maxHeartbeats 1000000

/-!
Verification of the SOUL_SENSE_EXAM authentication/session core against its
specification, together with a shallow embedding of the frontend client code
(`frontend-web/src/hooks/useAuth.tsx`, `frontend-web/src/lib/api/user.ts`,
`frontend-web/src/lib/api/auth.ts`).

The backend core (Credential Verifier, Lockout Tracker, Token Service,
Two-Factor Challenge Manager, Password Reset Manager, Revocation Store) is not
present in the repository snapshot; only its documentation and its frontend
callers are.  Those components are therefore modelled from the specification
(sections 3, 4 and 7 of the design document), as marked on each definition.
-/

namespace SoulSense

/-- Modelled from the spec: the external machine-readable error taxonomy of
section 7 (the backend error module is missing from the snapshot). -/
inductive ErrKind where
  | notFound
  | invalidCredential
  | accountInactive
  | accountLocked (retryAfter : Nat)
  | challengeExpired
  | challengeExhausted
  | invalidCode
  | tokenExpired
  | tokenRevoked
  | tokenReuseDetected
  | resetInvalidOrExpired
deriving DecidableEq, Repr

/-- Modelled from the spec: the internal (logged) failure kinds of the
Credential Verifier, section 4.1. -/
inductive CredFail where
  | accountNotFound
  | secretMismatch
  | accountInactive
  | accountLocked (retryAfter : Nat)
deriving DecidableEq, Repr

/-- Modelled from the spec: the mapping function from internal failure detail
to the external, caller-safe error kind (section 7 and design note on generic
vs detailed failures); not-found and wrong-secret collapse to one kind. -/
def toExternal : CredFail → ErrKind
  | .accountNotFound => .invalidCredential
  | .secretMismatch => .invalidCredential
  | .accountInactive => .accountInactive
  | .accountLocked r => .accountLocked r

/-- Modelled from the spec: the Account record of section 3 (identity store
is missing from the snapshot).  Timestamps are seconds as naturals. -/
structure Account where
  id : Nat
  identifier : String
  secretHash : String
  active : Bool
  twoFactorEnabled : Bool
deriving DecidableEq, Repr

/-- Modelled from the spec: per-account LockoutState, section 3. -/
structure LockoutState where
  failures : Nat
  lockedUntil : Option Nat
deriving DecidableEq, Repr

/-- Modelled from the spec: token status of a refresh token, section 3. -/
inductive TokStatus where
  | active
  | rotated
  | revoked
deriving DecidableEq, Repr

/-- Modelled from the spec: the RefreshToken record of section 3. -/
structure RefreshToken where
  id : Nat
  accountId : Nat
  familyId : Nat
  parent : Option Nat
  issuedAt : Nat
  expiry : Nat
  status : TokStatus
deriving DecidableEq, Repr

/-- Modelled from the spec: the stateless AccessToken of section 3. -/
structure AccessToken where
  subject : Nat
  issuedAt : Nat
  expiry : Nat
  familyId : Nat
deriving DecidableEq, Repr

/-- Modelled from the spec: the Token Service storage, section 4.4; rotated
tokens are retained, never deleted, for reuse detection. -/
structure TokenStore where
  tokens : List RefreshToken
  nextId : Nat
deriving DecidableEq, Repr

/-- Modelled from the spec: the PreAuthChallenge record of section 3. -/
structure Challenge where
  token : Nat
  accountId : Nat
  code : String
  expiry : Nat
  attemptsLeft : Nat
  consumed : Bool
deriving DecidableEq, Repr

/-- Modelled from the spec: the PasswordResetChallenge record of section 3. -/
structure ResetChallenge where
  accountId : Nat
  code : String
  expiry : Nat
  attemptsLeft : Nat
  consumed : Bool
deriving DecidableEq, Repr

/-- Modelled from the spec: the combined state of the authentication core. -/
structure SysState where
  accounts : List Account
  locks : List (Nat × LockoutState)
  store : TokenStore
  challenges : List Challenge
  resets : List ResetChallenge
  nextCode : Nat
deriving DecidableEq, Repr

/-- Access-token lifetime in seconds (short, minutes — section 4.4). -/
def accessTtl : Nat := 900

/-- Refresh-token lifetime in seconds (long, days/weeks — section 4.4). -/
def refreshTtl : Nat := 1209600

/-- Challenge lifetime in seconds (fixed, e.g. 5 minutes — section 4.3). -/
def challengeTtl : Nat := 300

/-- Challenge attempt budget (fixed, e.g. 5 tries — section 4.3). -/
def challengeAttempts : Nat := 5

/-- ASCII lower-casing of one character, used for case-insensitive
identifier comparison. -/
def lowerChar (c : Char) : Char :=
  if 65 ≤ c.toNat ∧ c.toNat ≤ 90 then Char.ofNat (c.toNat + 32) else c

/-- Case-insensitive string comparison (ASCII folding). -/
def caselessEq (x y : String) : Bool :=
  x.data.map lowerChar == y.data.map lowerChar

/-- Modelled from the spec: case-insensitive identifier lookup in the
identity store, section 4.1. -/
def findAccount (accounts : List Account) (identifier : String) : Option Account :=
  accounts.find? (fun a => caselessEq a.identifier identifier)

/-- Modelled from the spec: token lookup by token id in the store. -/
def lookupToken (st : TokenStore) (tid : Nat) : Option RefreshToken :=
  st.tokens.find? (fun t => t.id == tid)

/-- Modelled from the spec: revokeFamily of section 4.4 — marks every token
of the family revoked. -/
def revokeFamily (st : TokenStore) (fam : Nat) : TokenStore :=
  { st with tokens := st.tokens.map (fun t =>
      if t.familyId == fam then { t with status := TokStatus.revoked } else t) }

/-- Modelled from the spec: revocation of all refresh-token families of one
account, used by password reset (section 4.5). -/
def revokeAccount (st : TokenStore) (aid : Nat) : TokenStore :=
  { st with tokens := st.tokens.map (fun t =>
      if t.accountId == aid then { t with status := TokStatus.revoked } else t) }

/-- Modelled from the spec: issue of section 4.4 — starts a brand-new family
with one active refresh token and a short-lived access token. -/
def issueTok (st : TokenStore) (now aid : Nat) :
    (AccessToken × RefreshToken) × TokenStore :=
  let rt : RefreshToken :=
    { id := st.nextId, accountId := aid, familyId := st.nextId, parent := none,
      issuedAt := now, expiry := now + refreshTtl, status := TokStatus.active }
  let acc : AccessToken :=
    { subject := aid, issuedAt := now, expiry := now + accessTtl, familyId := st.nextId }
  ((acc, rt), { tokens := rt :: st.tokens, nextId := st.nextId + 1 })

/-- Modelled from the spec: refresh of section 4.4.  Order of checks:
not_found for an unknown token, expired past expiry, revoked for a revoked
family, reuse detection (revoking the whole family) on a rotated token, and
atomic rotation on an active token. -/
def refreshTok (st : TokenStore) (now tid : Nat) :
    Except ErrKind (AccessToken × RefreshToken) × TokenStore :=
  match lookupToken st tid with
  | none => (Except.error ErrKind.notFound, st)
  | some t =>
    if t.expiry ≤ now then (Except.error ErrKind.tokenExpired, st)
    else
      match t.status with
      | TokStatus.revoked => (Except.error ErrKind.tokenRevoked, st)
      | TokStatus.rotated =>
          (Except.error ErrKind.tokenReuseDetected, revokeFamily st t.familyId)
      | TokStatus.active =>
          let child : RefreshToken :=
            { id := st.nextId, accountId := t.accountId, familyId := t.familyId,
              parent := some t.id, issuedAt := now, expiry := now + refreshTtl,
              status := TokStatus.active }
          let acc : AccessToken :=
            { subject := t.accountId, issuedAt := now, expiry := now + accessTtl,
              familyId := t.familyId }
          (Except.ok (acc, child),
           { tokens := child :: st.tokens.map (fun u =>
               if u.id == tid then { u with status := TokStatus.rotated } else u),
             nextId := st.nextId + 1 })

/-- Modelled from the spec: the exponential backoff configuration table of
section 4.2, mapping the consecutive-failure count to a lockout duration in
seconds: 5 failures give 60s, 10 give 300s, 15 give 3600s, capped thereafter. -/
def backoff (failures : Nat) : Nat :=
  if failures < 10 then 60
  else if failures < 15 then 300
  else 3600

/-- Modelled from the spec: lockout threshold — a lock is installed once the
consecutive-failure count reaches 5 (section 4.2). -/
def lockThreshold : Nat := 5

/-- Modelled from the spec: lockout state lookup for an account; an account
with no record has zero failures and no lock. -/
def getLock (s : SysState) (aid : Nat) : LockoutState :=
  match s.locks.find? (fun p => p.1 == aid) with
  | none => { failures := 0, lockedUntil := none }
  | some p => p.2

/-- Modelled from the spec: atomic replacement of one account's lockout
state (per-key serialization, section 5). -/
def setLock (s : SysState) (aid : Nat) (lk : LockoutState) : SysState :=
  { s with locks := (aid, lk) :: s.locks.filter (fun p => p.1 != aid) }

/-- Whether no lock is currently in force at time now (section 4.2: a lock
gates the credential check until locked_until has passed). -/
def lockOpen (lk : LockoutState) (now : Nat) : Bool :=
  match lk.lockedUntil with
  | none => true
  | some u => decide (u ≤ now)

/-- Seconds remaining on an active lock, reported as retryAfter. -/
def lockRemaining (lk : LockoutState) (now : Nat) : Nat :=
  match lk.lockedUntil with
  | none => 0
  | some u => u - now

/-- Modelled from the spec: recording a failed attempt (section 4.2) —
increments the failure counter, and once the counter reaches the threshold
installs locked_until = now + backoff(failureCount). -/
def bumpFail (s : SysState) (aid now : Nat) : SysState :=
  let lk := getLock s aid
  let f := lk.failures + 1
  if lockThreshold ≤ f then
    setLock s aid { failures := f, lockedUntil := some (now + backoff f) }
  else
    setLock s aid { failures := f, lockedUntil := lk.lockedUntil }

/-- Modelled from the spec: a fresh PreAuthChallenge (section 4.3) with a
fresh one-time code and challenge token derived from the nonce counter. -/
def mkChallenge (s : SysState) (now aid : Nat) : Challenge :=
  { token := s.nextCode, accountId := aid, code := toString s.nextCode,
    expiry := now + challengeTtl, attemptsLeft := challengeAttempts,
    consumed := false }

/-- Modelled from the spec: installing a challenge supersedes any prior
pending challenge for the same account (single-in-flight, section 4.3). -/
def addChallenge (s : SysState) (c : Challenge) : SysState :=
  { s with challenges := c :: s.challenges.filter (fun d => d.accountId != c.accountId),
           nextCode := s.nextCode + 1 }

/-- Modelled from the spec: the external login reply shape of section 6 —
a token pair, a pre-auth token, or a failure. -/
inductive LoginReply where
  | tokens (access : AccessToken) (refresh : RefreshToken)
  | preAuth (token : Nat)
  | failure (k : ErrKind)
deriving DecidableEq, Repr

/-- Modelled from the spec: login (sections 4.1, 4.2, 6).  Lookup is
case-insensitive; the lock is consulted before the secret comparison; a
success clears the lockout and goes to the Token Service directly when no
second factor is enabled, or issues a pre-auth challenge otherwise; internal
failure kinds pass through the external mapping at the boundary. -/
def login (s : SysState) (now : Nat) (identifier secret : String) :
    LoginReply × SysState :=
  match findAccount s.accounts identifier with
  | none => (LoginReply.failure (toExternal CredFail.accountNotFound), s)
  | some a =>
    if lockOpen (getLock s a.id) now then
      if a.active = false then
        (LoginReply.failure (toExternal CredFail.accountInactive), s)
      else if secret = a.secretHash then
        let s0 := setLock s a.id { failures := 0, lockedUntil := none }
        if a.twoFactorEnabled then
          let c := mkChallenge s0 now a.id
          (LoginReply.preAuth c.token, addChallenge s0 c)
        else
          let r := issueTok s0.store now a.id
          (LoginReply.tokens r.1.1 r.1.2, { s0 with store := r.2 })
      else
        (LoginReply.failure (toExternal CredFail.secretMismatch), bumpFail s a.id now)
    else
      (LoginReply.failure
        (toExternal (CredFail.accountLocked (lockRemaining (getLock s a.id) now))), s)

/-- Modelled from the spec: challenge lookup by challenge token. -/
def findChallenge (cs : List Challenge) (tok : Nat) : Option Challenge :=
  cs.find? (fun c => c.token == tok)

/-- Modelled from the spec: the reply of verifyTwoFactor (section 6). -/
inductive VerifyReply where
  | session (access : AccessToken) (refresh : RefreshToken)
  | failure (k : ErrKind)
deriving DecidableEq, Repr

/-- Modelled from the spec: verify of section 4.3.  An unknown or already
consumed token is not_found; expiry and exhaustion short-circuit; a wrong
code decrements the attempt budget; a correct code counts the attempt, marks
the challenge consumed and delegates to the Token Service for a new family. -/
def verify2FA (s : SysState) (now tok : Nat) (code : String) :
    VerifyReply × SysState :=
  match findChallenge s.challenges tok with
  | none => (VerifyReply.failure ErrKind.notFound, s)
  | some c =>
    if c.consumed then (VerifyReply.failure ErrKind.notFound, s)
    else if c.expiry ≤ now then (VerifyReply.failure ErrKind.challengeExpired, s)
    else if c.attemptsLeft = 0 then (VerifyReply.failure ErrKind.challengeExhausted, s)
    else if code = c.code then
      let r := issueTok s.store now c.accountId
      (VerifyReply.session r.1.1 r.1.2,
       { s with
         challenges := s.challenges.map (fun d =>
           if d.token == tok then
             { d with attemptsLeft := d.attemptsLeft - 1, consumed := true }
           else d),
         store := r.2 })
    else
      (VerifyReply.failure ErrKind.invalidCode,
       { s with challenges := s.challenges.map (fun d =>
           if d.token == tok then { d with attemptsLeft := d.attemptsLeft - 1 }
           else d) })

/-- Modelled from the spec: the generic acknowledgement returned by reset
initiation (section 4.5). -/
inductive Ack where
  | genericOk
deriving DecidableEq, Repr

/-- Modelled from the spec: a fresh PasswordResetChallenge (section 4.5),
same attempt/expiry rules as the two-factor challenge. -/
def mkReset (s : SysState) (now aid : Nat) : ResetChallenge :=
  { accountId := aid, code := toString s.nextCode, expiry := now + challengeTtl,
    attemptsLeft := challengeAttempts, consumed := false }

/-- Modelled from the spec: reset-challenge lookup by account. -/
def findReset (rs : List ResetChallenge) (aid : Nat) : Option ResetChallenge :=
  rs.find? (fun r => r.accountId == aid)

/-- Modelled from the spec: initiate of section 4.5 — always answers with
the same generic acknowledgement whether or not an account with the given
identifier exists; only the internal side effect of issuing a one-time code
(superseding any prior challenge) differs. -/
def initiateReset (s : SysState) (now : Nat) (identifier : String) :
    Ack × SysState :=
  match findAccount s.accounts identifier with
  | none => (Ack.genericOk, s)
  | some a =>
      (Ack.genericOk,
       { s with
         resets := mkReset s now a.id :: s.resets.filter (fun r => r.accountId != a.id),
         nextCode := s.nextCode + 1 })

/-- Modelled from the spec: the reply of completeReset (section 6). -/
inductive ResetReply where
  | okDone
  | failure (k : ErrKind)
deriving DecidableEq, Repr

/-- Modelled from the spec: complete of section 4.5.  Every failing case
(unknown account, no challenge, consumed, expired, exhausted, wrong code)
answers with the single generic invalid_or_expired kind; a success updates
the account secret hash through the credential update hook, consumes the
challenge and revokes all existing refresh-token families of the account. -/
def completeReset (s : SysState) (now : Nat) (identifier code newSecret : String) :
    ResetReply × SysState :=
  match findAccount s.accounts identifier with
  | none => (ResetReply.failure ErrKind.resetInvalidOrExpired, s)
  | some a =>
    match findReset s.resets a.id with
    | none => (ResetReply.failure ErrKind.resetInvalidOrExpired, s)
    | some r =>
      if r.consumed then (ResetReply.failure ErrKind.resetInvalidOrExpired, s)
      else if r.expiry ≤ now then (ResetReply.failure ErrKind.resetInvalidOrExpired, s)
      else if r.attemptsLeft = 0 then (ResetReply.failure ErrKind.resetInvalidOrExpired, s)
      else if code = r.code then
        (ResetReply.okDone,
         { s with
           accounts := s.accounts.map (fun b =>
             if b.id == a.id then { b with secretHash := newSecret } else b),
           resets := s.resets.map (fun q =>
             if q.accountId == a.id then { q with consumed := true } else q),
           store := revokeAccount s.store a.id })
      else
        (ResetReply.failure ErrKind.resetInvalidOrExpired,
         { s with resets := s.resets.map (fun q =>
             if q.accountId == a.id then { q with attemptsLeft := q.attemptsLeft - 1 }
             else q) })

namespace Frontend

/-- Observable effects of the frontend client code: HTTP requests (with the
optional Authorization header value actually attached), session-storage
writes, user-state updates, router navigation, hard redirects via
window.location, and console logging. -/
inductive Effect where
  | request (url : String) (auth : Option String)
  | clearSession
  | setUser (u : Option String)
  | push (route : String)
  | redirect (route : String)
  | consoleError (msg : String)
deriving DecidableEq, Repr

/-- Outcome of an attempted fetch as seen by the caller: either the promise
resolves, or it rejects with a network error. -/
inductive FetchOutcome where
  | ok
  | networkError
deriving DecidableEq, Repr

/-- The network requests among a list of effects. -/
def networkRequests (es : List Effect) : List Effect :=
  es.filter (fun e => match e with | Effect.request _ _ => true | _ => false)

/-- Embedding of logout in frontend-web/src/hooks/useAuth.tsx (lines
115-129): inside a try block it awaits a POST to apiUrl + /api/v1/auth/logout
(no Authorization header, no body), a failure only being logged by the catch
clause; afterwards it always clears the stored session, sets the user to
null and navigates to /login.  The env argument mirrors
process.env.NEXT_PUBLIC_API_URL with its fallback. -/
def logout (env : Option String) (o : FetchOutcome) : List Effect :=
  let apiUrl := env.getD "http://localhost:8000"
  (match o with
   | FetchOutcome.ok => [Effect.request (apiUrl ++ "/api/v1/auth/logout") none]
   | FetchOutcome.networkError =>
       [Effect.request (apiUrl ++ "/api/v1/auth/logout") none,
        Effect.consoleError "Logout error:"])
  ++ [Effect.clearSession, Effect.setUser none, Effect.push "/login"]

/-- The fields of a fetch response consulted by the client code. -/
structure HttpResponse where
  ok : Bool
  status : Nat
  detail : Option String
deriving DecidableEq, Repr

/-- The audit-logs URL built in frontend-web/src/lib/api/user.ts. -/
def auditLogsUrl (env : Option String) (page limit : Nat) : String :=
  (env.getD "http://localhost:8000/api/v1") ++ "/users/me/audit-logs?page="
    ++ toString page ++ "&per_page=" ++ toString limit

/-- Embedding of userApi.getAuditLogs in frontend-web/src/lib/api/user.ts
(lines 4-29): reads the token stored under the localStorage key "token";
without one it throws "Not authenticated" before any request; with one it
issues a single GET carrying Bearer plus the token; a non-ok 401 response
sets window.location.href to /login and throws "Unauthorized"; any other
non-ok response throws the response detail (or a fallback message). -/
def getAuditLogs (env stored : Option String) (page limit : Nat)
    (resp : HttpResponse) : List Effect × Except String Unit :=
  match stored with
  | none => ([], Except.error "Not authenticated")
  | some tok =>
    let req := Effect.request (auditLogsUrl env page limit) (some ("Bearer " ++ tok))
    if resp.ok then ([req], Except.ok ())
    else if resp.status == 401 then
      ([req, Effect.redirect "/login"], Except.error "Unauthorized")
    else ([req], Except.error ((resp.detail).getD "Failed to fetch audit logs"))

end Frontend

/-! Generic lemmas about keyed updates of list-backed stores. -/

theorem find?_map_update {α : Type} (p q : α → Bool) (f : α → α)
    (hp : ∀ a, p (f a) = p a) :
    ∀ l : List α,
      (l.map (fun a => if q a then f a else a)).find? p
        = (l.find? p).map (fun a => if q a then f a else a)
  | [] => rfl
  | a :: l => by
    have hg : p (if q a then f a else a) = p a := by
      cases hqa : q a
      · simp
      · simp [hp]
    cases hpa : p a with
    | true =>
      rw [List.map_cons, List.find?_cons_of_pos _ (by rw [hg, hpa]),
          List.find?_cons_of_pos _ hpa]
      rfl
    | false =>
      rw [List.map_cons, List.find?_cons_of_neg _ (by simp [hg, hpa]),
          List.find?_cons_of_neg _ (by simp [hpa]), find?_map_update p q f hp l]

theorem lookupToken_revokeFamily (st : TokenStore) (fam tid : Nat) :
    lookupToken (revokeFamily st fam) tid
      = (lookupToken st tid).map (fun t =>
          if t.familyId == fam then { t with status := TokStatus.revoked } else t) := by
  unfold lookupToken revokeFamily
  exact find?_map_update (fun t => t.id == tid) (fun t => t.familyId == fam)
    (fun t => { t with status := TokStatus.revoked }) (fun _ => rfl) st.tokens

theorem lookupToken_revokeAccount (st : TokenStore) (aid tid : Nat) :
    lookupToken (revokeAccount st aid) tid
      = (lookupToken st tid).map (fun t =>
          if t.accountId == aid then { t with status := TokStatus.revoked } else t) := by
  unfold lookupToken revokeAccount
  exact find?_map_update (fun t => t.id == tid) (fun t => t.accountId == aid)
    (fun t => { t with status := TokStatus.revoked }) (fun _ => rfl) st.tokens

theorem refreshTok_rotated (st : TokenStore) (now tid : Nat) (t : RefreshToken)
    (hl : lookupToken st tid = some t) (he : now < t.expiry)
    (hs : t.status = TokStatus.rotated) :
    refreshTok st now tid
      = (Except.error ErrKind.tokenReuseDetected, revokeFamily st t.familyId) := by
  unfold refreshTok
  rw [hl]
  simp [show ¬ t.expiry ≤ now by omega, hs]

theorem refreshTok_revoked (st : TokenStore) (now tid : Nat) (t : RefreshToken)
    (hl : lookupToken st tid = some t) (he : now < t.expiry)
    (hs : t.status = TokStatus.revoked) :
    refreshTok st now tid = (Except.error ErrKind.tokenRevoked, st) := by
  unfold refreshTok
  rw [hl]
  simp [show ¬ t.expiry ≤ now by omega, hs]

/-- C1: presenting a refresh token whose status is rotated fails with
reuse detection and revokes the entire family, after which a refresh with
any unexpired token of that family — including the most recently issued
active one — fails with TokenRevoked. -/
theorem refresh_reuse_revokes_family (st : TokenStore) (now tid : Nat)
    (t : RefreshToken)
    (hl : lookupToken st tid = some t)
    (hs : t.status = TokStatus.rotated)
    (he : now < t.expiry) :
    (refreshTok st now tid).1 = Except.error ErrKind.tokenReuseDetected
    ∧ (refreshTok st now tid).2 = revokeFamily st t.familyId
    ∧ (∀ tid2 t2 n2, lookupToken (refreshTok st now tid).2 tid2 = some t2 →
        t2.familyId = t.familyId → n2 < t2.expiry →
        (refreshTok (refreshTok st now tid).2 n2 tid2).1
          = Except.error ErrKind.tokenRevoked) := by
  have href := refreshTok_rotated st now tid t hl he hs
  refine ⟨by rw [href], by rw [href], ?_⟩
  intro tid2 t2 n2 hl2 hf2 hn2
  rw [href] at hl2 ⊢
  have hst2 : t2.status = TokStatus.revoked := by
    rw [lookupToken_revokeFamily] at hl2
    rcases hu : lookupToken st tid2 with _ | u
    · rw [hu] at hl2; exact absurd hl2 (by simp)
    · rw [hu] at hl2
      injection hl2 with hl2
      by_cases hfam : (u.familyId == t.familyId) = true
      · simp only [hfam] at hl2
        simp only [if_true] at hl2
        rw [← hl2]
      · have hfam' : (u.familyId == t.familyId) = false := by
          cases hb : u.familyId == t.familyId
          · rfl
          · exact absurd hb hfam
        simp [hfam'] at hl2
        rw [← hl2] at hf2
        exact absurd (beq_iff_eq.mpr hf2) hfam
  rw [refreshTok_revoked (revokeFamily st t.familyId) n2 tid2 t2 hl2 hn2 hst2]

/-- First demo token store: empty, then one family issued for account 7
at time 0. -/
def famDemoStore1 : TokenStore := (issueTok { tokens := [], nextId := 0 } 0 7).2

/-- Demo store after one refresh at time 1: the original token of the
family is now rotated and a child is active. -/
def famDemoStore2 : TokenStore := (refreshTok famDemoStore1 1 0).2

/-- The rotated original token as it sits in the demo store. -/
def famDemoRotated : RefreshToken :=
  { id := 0, accountId := 7, familyId := 0, parent := none, issuedAt := 0,
    expiry := refreshTtl, status := TokStatus.rotated }

theorem refresh_reuse_revokes_family_witness :
    lookupToken famDemoStore2 0 = some famDemoRotated
    ∧ famDemoRotated.status = TokStatus.rotated
    ∧ 2 < famDemoRotated.expiry
    ∧ (refreshTok famDemoStore2 2 0).1 = Except.error ErrKind.tokenReuseDetected
    ∧ (refreshTok (refreshTok famDemoStore2 2 0).2 3 1).1
        = Except.error ErrKind.tokenRevoked := by
  have h := refresh_reuse_revokes_family famDemoStore2 2 0 famDemoRotated
    (by decide) (by decide) (by decide)
  refine ⟨by decide, by decide, by decide, h.1, ?_⟩
  exact h.2.2 1
    { id := 1, accountId := 7, familyId := 0, parent := some 0, issuedAt := 1,
      expiry := 1 + refreshTtl, status := TokStatus.revoked } 3
    (by decide) (by decide) (by decide)

/-- C4: password-reset initiation answers with the same generic
acknowledgement for every identifier; the observable return value does not
depend on whether an account with that identifier exists. -/
theorem initiateReset_no_enumeration (s : SysState) (now : Nat)
    (identifier other : String) :
    (initiateReset s now identifier).1 = Ack.genericOk
    ∧ (initiateReset s now identifier).1 = (initiateReset s now other).1 := by
  have h : ∀ idf : String, (initiateReset s now idf).1 = Ack.genericOk := by
    intro idf
    unfold initiateReset
    rcases findAccount s.accounts idf with _ | a
    · rfl
    · rfl
  exact ⟨h identifier, (h identifier).trans (h other).symm⟩

theorem completeReset_noAccount (s : SysState) (now : Nat)
    (idf code sec : String)
    (ha : findAccount s.accounts idf = none) :
    completeReset s now idf code sec
      = (ResetReply.failure ErrKind.resetInvalidOrExpired, s) := by
  simp only [completeReset, ha]

theorem completeReset_noChallenge (s : SysState) (now : Nat)
    (idf code sec : String) (a : Account)
    (ha : findAccount s.accounts idf = some a)
    (hr : findReset s.resets a.id = none) :
    completeReset s now idf code sec
      = (ResetReply.failure ErrKind.resetInvalidOrExpired, s) := by
  simp only [completeReset, ha, hr]

theorem completeReset_consumed (s : SysState) (now : Nat)
    (idf code sec : String) (a : Account) (r : ResetChallenge)
    (ha : findAccount s.accounts idf = some a)
    (hr : findReset s.resets a.id = some r)
    (hc : r.consumed = true) :
    completeReset s now idf code sec
      = (ResetReply.failure ErrKind.resetInvalidOrExpired, s) := by
  simp only [completeReset, ha, hr]
  simp [hc]

theorem completeReset_expired (s : SysState) (now : Nat)
    (idf code sec : String) (a : Account) (r : ResetChallenge)
    (ha : findAccount s.accounts idf = some a)
    (hr : findReset s.resets a.id = some r)
    (hnc : r.consumed = false) (he : r.expiry ≤ now) :
    completeReset s now idf code sec
      = (ResetReply.failure ErrKind.resetInvalidOrExpired, s) := by
  simp only [completeReset, ha, hr]
  rw [if_neg (by simp [hnc]), if_pos he]

theorem completeReset_exhausted (s : SysState) (now : Nat)
    (idf code sec : String) (a : Account) (r : ResetChallenge)
    (ha : findAccount s.accounts idf = some a)
    (hr : findReset s.resets a.id = some r)
    (hnc : r.consumed = false) (he : now < r.expiry)
    (hz : r.attemptsLeft = 0) :
    completeReset s now idf code sec
      = (ResetReply.failure ErrKind.resetInvalidOrExpired, s) := by
  simp only [completeReset, ha, hr]
  rw [if_neg (by simp [hnc]), if_neg (by omega), if_pos hz]

theorem completeReset_wrongCode (s : SysState) (now : Nat)
    (idf code sec : String) (a : Account) (r : ResetChallenge)
    (ha : findAccount s.accounts idf = some a)
    (hr : findReset s.resets a.id = some r)
    (hnc : r.consumed = false) (he : now < r.expiry)
    (hat : 0 < r.attemptsLeft) (hw : ¬ code = r.code) :
    completeReset s now idf code sec
      = (ResetReply.failure ErrKind.resetInvalidOrExpired,
         { s with resets := s.resets.map (fun q =>
             if q.accountId == a.id then { q with attemptsLeft := q.attemptsLeft - 1 }
             else q) }) := by
  simp only [completeReset, ha, hr]
  rw [if_neg (by simp [hnc]), if_neg (by omega), if_neg (by omega), if_neg hw]

theorem findAccount_setSecret (accounts : List Account) (idf : String)
    (aid : Nat) (sec : String) :
    findAccount (accounts.map (fun b =>
        if b.id == aid then { b with secretHash := sec } else b)) idf
      = (findAccount accounts idf).map (fun b =>
          if b.id == aid then { b with secretHash := sec } else b) := by
  unfold findAccount
  exact find?_map_update (fun b => caselessEq b.identifier idf)
    (fun b => b.id == aid) (fun b => { b with secretHash := sec })
    (fun _ => rfl) accounts

theorem findReset_consume (rs : List ResetChallenge) (aid : Nat) :
    findReset (rs.map (fun q =>
        if q.accountId == aid then { q with consumed := true } else q)) aid
      = (findReset rs aid).map (fun q =>
          if q.accountId == aid then { q with consumed := true } else q) := by
  unfold findReset
  exact find?_map_update (fun q => q.accountId == aid) (fun q => q.accountId == aid)
    (fun q => { q with consumed := true }) (fun _ => rfl) rs

/-- C5: completeReset fails with the single generic kind
ResetInvalidOrExpired in every failing case — unknown identifier, missing
challenge, already-used (consumed) challenge, expired challenge, exhausted
attempt budget, and wrong code — and a successful completion updates the
secret hash, consumes the challenge and revokes all of the account's
refresh-token families, so that a refresh with any unexpired pre-reset
token of the account fails with TokenRevoked. -/
theorem completeReset_correct (s : SysState) (now : Nat) (idf code sec : String)
    (a : Account) (r : ResetChallenge)
    (ha : findAccount s.accounts idf = some a)
    (hr : findReset s.resets a.id = some r)
    (hnc : r.consumed = false)
    (hexp : now < r.expiry)
    (hat : 0 < r.attemptsLeft)
    (hcode : code = r.code) :
    (∀ s2 n2 (i2 c2 ns2 : String), findAccount s2.accounts i2 = none →
        completeReset s2 n2 i2 c2 ns2
          = (ResetReply.failure ErrKind.resetInvalidOrExpired, s2))
    ∧ (∀ s2 n2 (i2 c2 ns2 : String) a2, findAccount s2.accounts i2 = some a2 →
        findReset s2.resets a2.id = none →
        completeReset s2 n2 i2 c2 ns2
          = (ResetReply.failure ErrKind.resetInvalidOrExpired, s2))
    ∧ (∀ s2 n2 (i2 c2 ns2 : String) a2 r2,
        findAccount s2.accounts i2 = some a2 →
        findReset s2.resets a2.id = some r2 → r2.consumed = true →
        completeReset s2 n2 i2 c2 ns2
          = (ResetReply.failure ErrKind.resetInvalidOrExpired, s2))
    ∧ (∀ s2 n2 (i2 c2 ns2 : String) a2 r2,
        findAccount s2.accounts i2 = some a2 →
        findReset s2.resets a2.id = some r2 → r2.consumed = false →
        r2.expiry ≤ n2 →
        completeReset s2 n2 i2 c2 ns2
          = (ResetReply.failure ErrKind.resetInvalidOrExpired, s2))
    ∧ (∀ s2 n2 (i2 c2 ns2 : String) a2 r2,
        findAccount s2.accounts i2 = some a2 →
        findReset s2.resets a2.id = some r2 → r2.consumed = false →
        n2 < r2.expiry → r2.attemptsLeft = 0 →
        completeReset s2 n2 i2 c2 ns2
          = (ResetReply.failure ErrKind.resetInvalidOrExpired, s2))
    ∧ (∀ s2 n2 (i2 c2 ns2 : String) a2 r2,
        findAccount s2.accounts i2 = some a2 →
        findReset s2.resets a2.id = some r2 → r2.consumed = false →
        n2 < r2.expiry → 0 < r2.attemptsLeft → ¬ c2 = r2.code →
        (completeReset s2 n2 i2 c2 ns2).1
          = ResetReply.failure ErrKind.resetInvalidOrExpired)
    ∧ (completeReset s now idf code sec).1 = ResetReply.okDone
    ∧ (∀ a2, findAccount (completeReset s now idf code sec).2.accounts idf = some a2 →
        a2.secretHash = sec)
    ∧ (∀ r2, findReset (completeReset s now idf code sec).2.resets a.id = some r2 →
        r2.consumed = true)
    ∧ (∀ tid t2 n2,
        lookupToken (completeReset s now idf code sec).2.store tid = some t2 →
        t2.accountId = a.id → n2 < t2.expiry →
        (refreshTok (completeReset s now idf code sec).2.store n2 tid).1
          = Except.error ErrKind.tokenRevoked) := by
  have hcr : completeReset s now idf code sec
      = (ResetReply.okDone,
         { s with
           accounts := s.accounts.map (fun b =>
             if b.id == a.id then { b with secretHash := sec } else b),
           resets := s.resets.map (fun q =>
             if q.accountId == a.id then { q with consumed := true } else q),
           store := revokeAccount s.store a.id }) := by
    simp only [completeReset, ha, hr]
    rw [if_neg (by simp [hnc]), if_neg (by omega), if_neg (by omega),
      if_pos hcode]
  have hcr1 : (completeReset s now idf code sec).1 = ResetReply.okDone := by
    rw [hcr]
  have hacc2 : (completeReset s now idf code sec).2.accounts
      = s.accounts.map (fun b =>
          if b.id == a.id then { b with secretHash := sec } else b) := by
    rw [hcr]
  have hres2 : (completeReset s now idf code sec).2.resets
      = s.resets.map (fun q =>
          if q.accountId == a.id then { q with consumed := true } else q) := by
    rw [hcr]
  have hsto2 : (completeReset s now idf code sec).2.store
      = revokeAccount s.store a.id := by
    rw [hcr]
  refine ⟨fun s2 n2 i2 c2 ns2 h => completeReset_noAccount s2 n2 i2 c2 ns2 h,
    fun s2 n2 i2 c2 ns2 a2 h1 h2 =>
      completeReset_noChallenge s2 n2 i2 c2 ns2 a2 h1 h2,
    fun s2 n2 i2 c2 ns2 a2 r2 h1 h2 h3 =>
      completeReset_consumed s2 n2 i2 c2 ns2 a2 r2 h1 h2 h3,
    fun s2 n2 i2 c2 ns2 a2 r2 h1 h2 h3 h4 =>
      completeReset_expired s2 n2 i2 c2 ns2 a2 r2 h1 h2 h3 h4,
    fun s2 n2 i2 c2 ns2 a2 r2 h1 h2 h3 h4 h5 =>
      completeReset_exhausted s2 n2 i2 c2 ns2 a2 r2 h1 h2 h3 h4 h5,
    fun s2 n2 i2 c2 ns2 a2 r2 h1 h2 h3 h4 h5 h6 => by
      rw [completeReset_wrongCode s2 n2 i2 c2 ns2 a2 r2 h1 h2 h3 h4 h5 h6],
    hcr1, ?_, ?_, ?_⟩
  · intro a2 ha2
    rw [hacc2, findAccount_setSecret, ha] at ha2
    injection ha2 with ha2
    rw [← ha2]
    simp
  · intro r2 hr2
    rw [hres2, findReset_consume, hr] at hr2
    injection hr2 with hr2
    have hr' : s.resets.find? (fun q => q.accountId == a.id) = some r := hr
    have hqa := List.find?_some hr'
    simp only [hqa] at hr2
    simp only [if_true] at hr2
    rw [← hr2]
  · intro tid t2 n2 hl2 hacc hn2
    rw [hsto2] at hl2 ⊢
    have hst2 : t2.status = TokStatus.revoked := by
      rw [lookupToken_revokeAccount] at hl2
      rcases hu : lookupToken s.store tid with _ | u
      · rw [hu] at hl2; exact absurd hl2 (by simp)
      · rw [hu] at hl2
        injection hl2 with hl2
        by_cases hfam : (u.accountId == a.id) = true
        · simp only [hfam] at hl2
          simp only [if_true] at hl2
          rw [← hl2]
        · have hfam' : (u.accountId == a.id) = false := by
            cases hb : u.accountId == a.id
            · rfl
            · exact absurd hb hfam
          simp [hfam'] at hl2
          rw [← hl2] at hacc
          exact absurd (beq_iff_eq.mpr hacc) hfam
    rw [refreshTok_revoked (revokeAccount s.store a.id) n2 tid t2 hl2 hn2 hst2]

/-- Demo account for the password-reset scenario. -/
def resetDemoAccount : Account :=
  { id := 1, identifier := "bob", secretHash := "old", active := true,
    twoFactorEnabled := false }

/-- Demo state: one account, one live reset challenge for it, and one
standing refresh-token family issued before the reset. -/
def resetDemoState : SysState :=
  { accounts := [resetDemoAccount],
    locks := [],
    store := (issueTok { tokens := [], nextId := 0 } 0 1).2,
    challenges := [],
    resets := [{ accountId := 1, code := "42", expiry := 100, attemptsLeft := 5,
                 consumed := false }],
    nextCode := 5 }

/-- Demo state whose reset challenge has an exhausted attempt budget. -/
def resetZeroState : SysState :=
  { resetDemoState with
    resets := [{ accountId := 1, code := "42", expiry := 100, attemptsLeft := 0,
                 consumed := false }] }

theorem completeReset_correct_witness :
    completeReset resetDemoState 10 "nobody" "42" "new"
      = (ResetReply.failure ErrKind.resetInvalidOrExpired, resetDemoState)
    ∧ completeReset resetDemoState 500 "bob" "42" "new"
        = (ResetReply.failure ErrKind.resetInvalidOrExpired, resetDemoState)
    ∧ completeReset resetZeroState 10 "bob" "42" "new"
        = (ResetReply.failure ErrKind.resetInvalidOrExpired, resetZeroState)
    ∧ (completeReset resetDemoState 10 "bob" "41" "new").1
        = ResetReply.failure ErrKind.resetInvalidOrExpired
    ∧ (completeReset resetDemoState 10 "bob" "42" "new").1 = ResetReply.okDone
    ∧ completeReset (completeReset resetDemoState 10 "bob" "42" "new").2
        11 "bob" "42" "x"
        = (ResetReply.failure ErrKind.resetInvalidOrExpired,
           (completeReset resetDemoState 10 "bob" "42" "new").2)
    ∧ (refreshTok (completeReset resetDemoState 10 "bob" "42" "new").2.store 20 0).1
        = Except.error ErrKind.tokenRevoked := by
  have h := completeReset_correct resetDemoState 10 "bob" "42" "new"
    resetDemoAccount
    { accountId := 1, code := "42", expiry := 100, attemptsLeft := 5,
      consumed := false }
    (by decide) (by decide) rfl (by decide) (by decide) rfl
  refine ⟨h.1 resetDemoState 10 "nobody" "42" "new" (by decide),
    h.2.2.2.1 resetDemoState 500 "bob" "42" "new" resetDemoAccount
      { accountId := 1, code := "42", expiry := 100, attemptsLeft := 5,
        consumed := false } (by decide) (by decide) rfl (by decide),
    h.2.2.2.2.1 resetZeroState 10 "bob" "42" "new" resetDemoAccount
      { accountId := 1, code := "42", expiry := 100, attemptsLeft := 0,
        consumed := false } (by decide) (by decide) rfl (by decide) rfl,
    h.2.2.2.2.2.1 resetDemoState 10 "bob" "41" "new" resetDemoAccount
      { accountId := 1, code := "42", expiry := 100, attemptsLeft := 5,
        consumed := false } (by decide) (by decide) rfl (by decide) (by decide)
      (by decide),
    h.2.2.2.2.2.2.1,
    h.2.2.1 (completeReset resetDemoState 10 "bob" "42" "new").2 11 "bob" "42"
      "x"
      { id := 1, identifier := "bob", secretHash := "new", active := true,
        twoFactorEnabled := false }
      { accountId := 1, code := "42", expiry := 100, attemptsLeft := 5,
        consumed := true } (by decide) (by decide) rfl,
    ?_⟩
  exact h.2.2.2.2.2.2.2.2.2 0
    { id := 0, accountId := 1, familyId := 0, parent := none, issuedAt := 0,
      expiry := refreshTtl, status := TokStatus.revoked } 20
    (by decide) rfl (by decide)

theorem findChallenge_consume (cs : List Challenge) (tok : Nat) :
    findChallenge (cs.map (fun d => if d.token == tok then
        { d with attemptsLeft := d.attemptsLeft - 1, consumed := true } else d)) tok
      = (findChallenge cs tok).map (fun d => if d.token == tok then
          { d with attemptsLeft := d.attemptsLeft - 1, consumed := true } else d) := by
  unfold findChallenge
  exact find?_map_update (fun d => d.token == tok) (fun d => d.token == tok)
    (fun d => { d with attemptsLeft := d.attemptsLeft - 1, consumed := true })
    (fun _ => rfl) cs

theorem findChallenge_decrement (cs : List Challenge) (tok : Nat) :
    findChallenge (cs.map (fun d => if d.token == tok then
        { d with attemptsLeft := d.attemptsLeft - 1 } else d)) tok
      = (findChallenge cs tok).map (fun d => if d.token == tok then
          { d with attemptsLeft := d.attemptsLeft - 1 } else d) := by
  unfold findChallenge
  exact find?_map_update (fun d => d.token == tok) (fun d => d.token == tok)
    (fun d => { d with attemptsLeft := d.attemptsLeft - 1 })
    (fun _ => rfl) cs

theorem verify2FA_success (s : SysState) (now tok : Nat) (code : String)
    (c : Challenge)
    (hc : findChallenge s.challenges tok = some c)
    (hnc : c.consumed = false) (hexp : now < c.expiry) (hat : 0 < c.attemptsLeft)
    (hcode : code = c.code) :
    verify2FA s now tok code
      = (VerifyReply.session (issueTok s.store now c.accountId).1.1
           (issueTok s.store now c.accountId).1.2,
         { s with
           challenges := s.challenges.map (fun d =>
             if d.token == tok then
               { d with attemptsLeft := d.attemptsLeft - 1, consumed := true }
             else d),
           store := (issueTok s.store now c.accountId).2 }) := by
  simp only [verify2FA, hc]
  rw [if_neg (by simp [hnc]), if_neg (by omega), if_neg (by omega), if_pos hcode]

theorem verify2FA_consumed (s : SysState) (now tok : Nat) (code : String)
    (c : Challenge)
    (hc : findChallenge s.challenges tok = some c)
    (hcons : c.consumed = true) :
    verify2FA s now tok code = (VerifyReply.failure ErrKind.notFound, s) := by
  simp only [verify2FA, hc]
  simp [hcons]

theorem verify2FA_notFound (s : SysState) (now tok : Nat) (code : String)
    (hc : findChallenge s.challenges tok = none) :
    verify2FA s now tok code = (VerifyReply.failure ErrKind.notFound, s) := by
  simp only [verify2FA, hc]

theorem verify2FA_expired (s : SysState) (now tok : Nat) (code : String)
    (c : Challenge)
    (hc : findChallenge s.challenges tok = some c)
    (hnc : c.consumed = false) (hexp : c.expiry ≤ now) :
    verify2FA s now tok code = (VerifyReply.failure ErrKind.challengeExpired, s) := by
  simp only [verify2FA, hc]
  rw [if_neg (by simp [hnc]), if_pos hexp]

theorem verify2FA_exhausted (s : SysState) (now tok : Nat) (code : String)
    (c : Challenge)
    (hc : findChallenge s.challenges tok = some c)
    (hnc : c.consumed = false) (hexp : now < c.expiry)
    (hz : c.attemptsLeft = 0) :
    verify2FA s now tok code
      = (VerifyReply.failure ErrKind.challengeExhausted, s) := by
  simp only [verify2FA, hc]
  rw [if_neg (by simp [hnc]), if_neg (by omega), if_pos hz]

theorem verify2FA_invalidCode (s : SysState) (now tok : Nat) (code : String)
    (c : Challenge)
    (hc : findChallenge s.challenges tok = some c)
    (hnc : c.consumed = false) (hexp : now < c.expiry) (hat : 0 < c.attemptsLeft)
    (hw : ¬ code = c.code) :
    verify2FA s now tok code
      = (VerifyReply.failure ErrKind.invalidCode,
         { s with challenges := s.challenges.map (fun d =>
             if d.token == tok then { d with attemptsLeft := d.attemptsLeft - 1 }
             else d) }) := by
  simp only [verify2FA, hc]
  rw [if_neg (by simp [hnc]), if_neg (by omega), if_neg (by omega), if_neg hw]

/-- C3: a two-factor challenge accepts the correct code at most once: a
successful verification consumes the challenge, and every later verification
with the same challenge token — even with the same correct code — fails with
not_found and leaves the state (hence the token store) unchanged, so no
second session is ever minted. -/
theorem challenge_single_use (s : SysState) (now tok : Nat) (code : String)
    (c : Challenge)
    (hc : findChallenge s.challenges tok = some c)
    (hnc : c.consumed = false) (hexp : now < c.expiry) (hat : 0 < c.attemptsLeft)
    (hcode : code = c.code) :
    (∃ acc rt, (verify2FA s now tok code).1 = VerifyReply.session acc rt)
    ∧ (∀ n2 code2, verify2FA (verify2FA s now tok code).2 n2 tok code2
        = (VerifyReply.failure ErrKind.notFound, (verify2FA s now tok code).2)) := by
  have hv := verify2FA_success s now tok code c hc hnc hexp hat hcode
  have hctok := List.find?_some
    (show s.challenges.find? (fun d => d.token == tok) = some c from hc)
  have hch2 : (verify2FA s now tok code).2.challenges
      = s.challenges.map (fun d =>
          if d.token == tok then
            { d with attemptsLeft := d.attemptsLeft - 1, consumed := true }
          else d) := by
    rw [hv]
  have hctok2 : (c.token == tok) = true := hctok
  have hf2 : findChallenge (verify2FA s now tok code).2.challenges tok
      = some { c with attemptsLeft := c.attemptsLeft - 1, consumed := true } := by
    rw [hch2, findChallenge_consume, hc]
    simp only [Option.map_some']
    rw [if_pos hctok2]
  constructor
  · rw [hv]
    exact ⟨_, _, rfl⟩
  · intro n2 code2
    exact verify2FA_consumed (verify2FA s now tok code).2 n2 tok code2
      { c with attemptsLeft := c.attemptsLeft - 1, consumed := true } hf2 rfl

/-- C8: a challenge whose attempt budget has reached zero rejects every
further verification with ChallengeExhausted even when the submitted code
equals the expected one; a counted wrong attempt decrements the remaining
budget and a counted correct attempt decrements it while consuming the
challenge; not_found and expired checks short-circuit with the state
unchanged. -/
theorem challenge_attempt_budget (s : SysState) (now tok : Nat) (code : String)
    (c : Challenge)
    (hc : findChallenge s.challenges tok = some c)
    (hnc : c.consumed = false) (hexp : now < c.expiry) :
    (c.attemptsLeft = 0 →
      verify2FA s now tok code
        = (VerifyReply.failure ErrKind.challengeExhausted, s))
    ∧ (0 < c.attemptsLeft → ¬ code = c.code →
        (verify2FA s now tok code).1 = VerifyReply.failure ErrKind.invalidCode
        ∧ findChallenge (verify2FA s now tok code).2.challenges tok
            = some { c with attemptsLeft := c.attemptsLeft - 1 })
    ∧ (0 < c.attemptsLeft → code = c.code →
        findChallenge (verify2FA s now tok code).2.challenges tok
          = some { c with attemptsLeft := c.attemptsLeft - 1, consumed := true })
    ∧ (∀ s2 n2 t2 cd2, findChallenge s2.challenges t2 = none →
        verify2FA s2 n2 t2 cd2 = (VerifyReply.failure ErrKind.notFound, s2))
    ∧ (∀ s2 n2 t2 cd2 c2, findChallenge s2.challenges t2 = some c2 →
        c2.consumed = false → c2.expiry ≤ n2 →
        verify2FA s2 n2 t2 cd2
          = (VerifyReply.failure ErrKind.challengeExpired, s2)) := by
  have hctok := List.find?_some
    (show s.challenges.find? (fun d => d.token == tok) = some c from hc)
  have hctok2 : (c.token == tok) = true := hctok
  refine ⟨fun hz => verify2FA_exhausted s now tok code c hc hnc hexp hz,
    ?_, ?_,
    fun s2 n2 t2 cd2 h => verify2FA_notFound s2 n2 t2 cd2 h,
    fun s2 n2 t2 cd2 c2 h hn he => verify2FA_expired s2 n2 t2 cd2 c2 h hn he⟩
  · intro hat hw
    have hv := verify2FA_invalidCode s now tok code c hc hnc hexp hat hw
    constructor
    · rw [hv]
    · have hch2 : (verify2FA s now tok code).2.challenges
          = s.challenges.map (fun d =>
              if d.token == tok then { d with attemptsLeft := d.attemptsLeft - 1 }
              else d) := by
        rw [hv]
      rw [hch2, findChallenge_decrement, hc]
      simp only [Option.map_some']
      rw [if_pos hctok2]
  · intro hat hcd
    have hv := verify2FA_success s now tok code c hc hnc hexp hat hcd
    have hch2 : (verify2FA s now tok code).2.challenges
        = s.challenges.map (fun d =>
            if d.token == tok then
              { d with attemptsLeft := d.attemptsLeft - 1, consumed := true }
            else d) := by
      rw [hv]
    rw [hch2, findChallenge_consume, hc]
    simp only [Option.map_some']
    rw [if_pos hctok2]

/-- Demo pending two-factor challenge with a full attempt budget. -/
def chalDemoChallenge : Challenge :=
  { token := 9, accountId := 3, code := "123456", expiry := 400,
    attemptsLeft := 5, consumed := false }

/-- Demo state holding one pending two-factor challenge. -/
def chalDemoState : SysState :=
  { accounts := [], locks := [], store := { tokens := [], nextId := 0 },
    challenges := [chalDemoChallenge], resets := [], nextCode := 10 }

/-- Demo two-factor challenge whose attempt budget is exhausted. -/
def chalZeroChallenge : Challenge :=
  { token := 11, accountId := 3, code := "123456", expiry := 400,
    attemptsLeft := 0, consumed := false }

/-- Demo state holding one exhausted two-factor challenge. -/
def chalZeroState : SysState :=
  { accounts := [], locks := [], store := { tokens := [], nextId := 0 },
    challenges := [chalZeroChallenge], resets := [], nextCode := 10 }

theorem challenge_single_use_witness :
    (∃ acc rt, (verify2FA chalDemoState 50 9 "123456").1
        = VerifyReply.session acc rt)
    ∧ verify2FA (verify2FA chalDemoState 50 9 "123456").2 60 9 "123456"
        = (VerifyReply.failure ErrKind.notFound,
           (verify2FA chalDemoState 50 9 "123456").2) := by
  have h := challenge_single_use chalDemoState 50 9 "123456" chalDemoChallenge
    rfl rfl (by decide) (by decide) rfl
  exact ⟨h.1, h.2 60 "123456"⟩

theorem challenge_attempt_budget_witness :
    verify2FA chalZeroState 50 11 "123456"
      = (VerifyReply.failure ErrKind.challengeExhausted, chalZeroState)
    ∧ (verify2FA chalDemoState 50 9 "999999").1
        = VerifyReply.failure ErrKind.invalidCode
    ∧ findChallenge (verify2FA chalDemoState 50 9 "999999").2.challenges 9
        = some { token := 9, accountId := 3, code := "123456", expiry := 400,
                 attemptsLeft := 4, consumed := false } := by
  have h0 := challenge_attempt_budget chalZeroState 50 11 "123456"
    chalZeroChallenge rfl rfl (by decide)
  have h1 := challenge_attempt_budget chalDemoState 50 9 "999999"
    chalDemoChallenge rfl rfl (by decide)
  have h2 := h1.2.1 (by decide) (by decide)
  exact ⟨h0.1 rfl, h2.1, h2.2⟩

/-! Helper equations for the login operation. -/

theorem login_notFound (s : SysState) (now : Nat) (idf secret : String)
    (ha : findAccount s.accounts idf = none) :
    login s now idf secret
      = (LoginReply.failure ErrKind.invalidCredential, s) := by
  simp only [login, ha]
  rfl

theorem login_locked (s : SysState) (now : Nat) (idf secret : String)
    (a : Account)
    (ha : findAccount s.accounts idf = some a)
    (hl : lockOpen (getLock s a.id) now = false) :
    login s now idf secret
      = (LoginReply.failure
           (ErrKind.accountLocked (lockRemaining (getLock s a.id) now)), s) := by
  simp only [login, ha]
  rw [if_neg (by simp [hl])]
  rfl

theorem login_mismatch (s : SysState) (now : Nat) (idf secret : String)
    (a : Account)
    (ha : findAccount s.accounts idf = some a)
    (hl : lockOpen (getLock s a.id) now = true)
    (hact : a.active = true)
    (hsec : ¬ secret = a.secretHash) :
    login s now idf secret
      = (LoginReply.failure ErrKind.invalidCredential, bumpFail s a.id now) := by
  simp only [login, ha]
  rw [if_pos hl, if_neg (by simp [hact]), if_neg hsec]
  rfl

theorem login_success_no2fa (s : SysState) (now : Nat) (idf secret : String)
    (a : Account)
    (ha : findAccount s.accounts idf = some a)
    (hl : lockOpen (getLock s a.id) now = true)
    (hact : a.active = true)
    (hsec : secret = a.secretHash)
    (h2 : a.twoFactorEnabled = false) :
    login s now idf secret
      = (LoginReply.tokens
           (issueTok (setLock s a.id { failures := 0, lockedUntil := none }).store
             now a.id).1.1
           (issueTok (setLock s a.id { failures := 0, lockedUntil := none }).store
             now a.id).1.2,
         { setLock s a.id { failures := 0, lockedUntil := none } with
           store := (issueTok
             (setLock s a.id { failures := 0, lockedUntil := none }).store
             now a.id).2 }) := by
  simp only [login, ha]
  rw [if_pos hl, if_neg (by simp [hact]), if_pos hsec, if_neg (by simp [h2])]

theorem login_success_2fa (s : SysState) (now : Nat) (idf secret : String)
    (a : Account)
    (ha : findAccount s.accounts idf = some a)
    (hl : lockOpen (getLock s a.id) now = true)
    (hact : a.active = true)
    (hsec : secret = a.secretHash)
    (h2 : a.twoFactorEnabled = true) :
    login s now idf secret
      = (LoginReply.preAuth
           (mkChallenge (setLock s a.id { failures := 0, lockedUntil := none })
             now a.id).token,
         addChallenge (setLock s a.id { failures := 0, lockedUntil := none })
           (mkChallenge (setLock s a.id { failures := 0, lockedUntil := none })
             now a.id)) := by
  simp only [login, ha]
  rw [if_pos hl, if_neg (by simp [hact]), if_pos hsec, if_pos h2]

theorem getLock_setLock (s : SysState) (aid : Nat) (lk : LockoutState) :
    getLock (setLock s aid lk) aid = lk := by
  simp [getLock, setLock]

theorem accounts_setLock (s : SysState) (aid : Nat) (lk : LockoutState) :
    (setLock s aid lk).accounts = s.accounts := rfl

theorem bumpFail_crossing (s : SysState) (aid now : Nat)
    (h : (getLock s aid).failures + 1 = lockThreshold) :
    bumpFail s aid now
      = setLock s aid { failures := lockThreshold,
                        lockedUntil := some (now + backoff lockThreshold) } := by
  unfold bumpFail
  rw [if_pos (by omega), h]

theorem accounts_bumpFail (s : SysState) (aid now : Nat) :
    (bumpFail s aid now).accounts = s.accounts := by
  simp only [bumpFail]
  split
  · rfl
  · rfl

/-- C2: once the consecutive-failure count crosses the lockout threshold, a
lock until now + backoff is installed; every login before that instant —
even with the correct secret — fails with AccountLocked carrying the
remaining retry time, and once the lock has elapsed a correct-secret login
succeeds normally (tokens, or a pre-auth token when 2FA is on). -/
theorem lockout_threshold_lockout (s : SysState) (t : Nat)
    (idf wrong correct : String) (a : Account)
    (ha : findAccount s.accounts idf = some a)
    (hf4 : (getLock s a.id).failures + 1 = lockThreshold)
    (hopen : lockOpen (getLock s a.id) t = true)
    (hact : a.active = true)
    (hwrong : ¬ wrong = a.secretHash)
    (hcorrect : correct = a.secretHash) :
    getLock (login s t idf wrong).2 a.id
      = { failures := lockThreshold, lockedUntil := some (t + 60) }
    ∧ (∀ n, n < t + 60 →
        (login (login s t idf wrong).2 n idf correct).1
          = LoginReply.failure (ErrKind.accountLocked (t + 60 - n)))
    ∧ (∀ n, t + 60 ≤ n →
        (a.twoFactorEnabled = false →
          ∃ acc rt, (login (login s t idf wrong).2 n idf correct).1
            = LoginReply.tokens acc rt)
        ∧ (a.twoFactorEnabled = true →
          ∃ ptok, (login (login s t idf wrong).2 n idf correct).1
            = LoginReply.preAuth ptok)) := by
  have hb60 : backoff lockThreshold = 60 := rfl
  have hm := login_mismatch s t idf wrong a ha hopen hact hwrong
  have hs2 : (login s t idf wrong).2 = bumpFail s a.id t := by rw [hm]
  have hbf := bumpFail_crossing s a.id t hf4
  have hgl : getLock (login s t idf wrong).2 a.id
      = { failures := lockThreshold, lockedUntil := some (t + 60) } := by
    rw [hs2, hbf, getLock_setLock, hb60]
  have hacc : (login s t idf wrong).2.accounts = s.accounts := by
    rw [hs2, accounts_bumpFail]
  have hfind : findAccount (login s t idf wrong).2.accounts idf = some a := by
    rw [hacc, ha]
  refine ⟨hgl, ?_, ?_⟩
  · intro n hn
    have hcl : lockOpen (getLock (login s t idf wrong).2 a.id) n = false := by
      rw [hgl]
      simp [lockOpen]
      omega
    have := login_locked (login s t idf wrong).2 n idf correct a hfind hcl
    rw [this]
    rw [hgl]
    rfl
  · intro n hn
    have hol : lockOpen (getLock (login s t idf wrong).2 a.id) n = true := by
      rw [hgl]
      simp [lockOpen]
      omega
    constructor
    · intro h2
      rw [login_success_no2fa (login s t idf wrong).2 n idf correct a hfind hol
        hact hcorrect h2]
      exact ⟨_, _, rfl⟩
    · intro h2
      rw [login_success_2fa (login s t idf wrong).2 n idf correct a hfind hol
        hact hcorrect h2]
      exact ⟨_, rfl⟩

/-- Demo account for the lockout scenario (no second factor). -/
def lockDemoAccount : Account :=
  { id := 1, identifier := "alice", secretHash := "pw", active := true,
    twoFactorEnabled := false }

/-- Demo state: the account already has four consecutive failures. -/
def lockDemoState : SysState :=
  { accounts := [lockDemoAccount],
    locks := [(1, { failures := 4, lockedUntil := none })],
    store := { tokens := [], nextId := 0 },
    challenges := [], resets := [], nextCode := 0 }

theorem lockout_threshold_lockout_witness :
    getLock (login lockDemoState 100 "alice" "bad").2 1
      = { failures := 5, lockedUntil := some 160 }
    ∧ (login (login lockDemoState 100 "alice" "bad").2 150 "alice" "pw").1
        = LoginReply.failure (ErrKind.accountLocked 10)
    ∧ ∃ acc rt,
        (login (login lockDemoState 100 "alice" "bad").2 160 "alice" "pw").1
          = LoginReply.tokens acc rt := by
  have h := lockout_threshold_lockout lockDemoState 100 "alice" "bad" "pw"
    lockDemoAccount (by decide) (by decide) (by decide) (by decide)
    (by decide) (by decide)
  exact ⟨h.1, h.2.1 150 (by decide), (h.2.2 160 (by decide)).1 rfl⟩

/-- C6: the external failure for an unknown identifier is identical to the
external failure for a wrong secret on an existing account — the single
merged InvalidCredential kind — while the internal kinds that are logged
remain distinct. -/
theorem invalid_credential_merged (s : SysState) (now : Nat)
    (id1 sec1 id2 sec2 : String) (a : Account)
    (h1 : findAccount s.accounts id1 = none)
    (h2 : findAccount s.accounts id2 = some a)
    (hlock : lockOpen (getLock s a.id) now = true)
    (hact : a.active = true)
    (hmm : ¬ sec2 = a.secretHash) :
    (login s now id1 sec1).1 = LoginReply.failure ErrKind.invalidCredential
    ∧ (login s now id2 sec2).1 = LoginReply.failure ErrKind.invalidCredential
    ∧ (login s now id1 sec1).1 = (login s now id2 sec2).1
    ∧ CredFail.accountNotFound ≠ CredFail.secretMismatch
    ∧ toExternal CredFail.accountNotFound = toExternal CredFail.secretMismatch := by
  have e1 : (login s now id1 sec1).1
      = LoginReply.failure ErrKind.invalidCredential := by
    rw [login_notFound s now id1 sec1 h1]
  have e2 : (login s now id2 sec2).1
      = LoginReply.failure ErrKind.invalidCredential := by
    rw [login_mismatch s now id2 sec2 a h2 hlock hact hmm]
  exact ⟨e1, e2, e1.trans e2.symm, by decide, rfl⟩

theorem invalid_credential_merged_witness :
    (login lockDemoState 0 "nobody" "x").1
      = LoginReply.failure ErrKind.invalidCredential
    ∧ (login lockDemoState 0 "alice" "bad").1
        = LoginReply.failure ErrKind.invalidCredential
    ∧ (login lockDemoState 0 "nobody" "x").1
        = (login lockDemoState 0 "alice" "bad").1 := by
  have h := invalid_credential_merged lockDemoState 0 "nobody" "x" "alice" "bad"
    lockDemoAccount (by decide) (by decide) (by decide) (by decide) (by decide)
  exact ⟨h.1, h.2.1, h.2.2.1⟩

/-- C7: login yields exactly one of three shapes — a token pair, a pre-auth
token, or a failure.  With valid credentials it yields a pre-auth token and
never a token pair when the account has a second factor enabled, and a
token pair when it does not. -/
theorem login_three_shapes (s : SysState) (now : Nat) (idf secret : String)
    (a : Account)
    (ha : findAccount s.accounts idf = some a)
    (hlock : lockOpen (getLock s a.id) now = true)
    (hact : a.active = true)
    (hsec : secret = a.secretHash) :
    (a.twoFactorEnabled = true →
       (∃ ptok, (login s now idf secret).1 = LoginReply.preAuth ptok)
       ∧ ∀ acc rt, (login s now idf secret).1 ≠ LoginReply.tokens acc rt)
    ∧ (a.twoFactorEnabled = false →
       ∃ acc rt, (login s now idf secret).1 = LoginReply.tokens acc rt)
    ∧ (∀ (s2 : SysState) (n2 : Nat) (i2 sc2 : String),
        (∃ acc rt, (login s2 n2 i2 sc2).1 = LoginReply.tokens acc rt)
        ∨ (∃ ptok, (login s2 n2 i2 sc2).1 = LoginReply.preAuth ptok)
        ∨ (∃ k, (login s2 n2 i2 sc2).1 = LoginReply.failure k)) := by
  refine ⟨?_, ?_, ?_⟩
  · intro h2
    rw [login_success_2fa s now idf secret a ha hlock hact hsec h2]
    exact ⟨⟨_, rfl⟩, fun acc rt h => by exact absurd h (by simp)⟩
  · intro h2
    rw [login_success_no2fa s now idf secret a ha hlock hact hsec h2]
    exact ⟨_, _, rfl⟩
  · intro s2 n2 i2 sc2
    cases hr : (login s2 n2 i2 sc2).1 with
    | tokens acc rt => exact Or.inl ⟨acc, rt, rfl⟩
    | preAuth ptok => exact Or.inr (Or.inl ⟨ptok, rfl⟩)
    | failure k => exact Or.inr (Or.inr ⟨k, rfl⟩)

/-- Demo account with a second factor enabled. -/
def twoFaDemoAccount : Account :=
  { id := 2, identifier := "twofa", secretHash := "pw2", active := true,
    twoFactorEnabled := true }

/-- Demo state for the 2FA login scenario. -/
def twoFaDemoState : SysState :=
  { accounts := [twoFaDemoAccount],
    locks := [],
    store := { tokens := [], nextId := 0 },
    challenges := [], resets := [], nextCode := 0 }

theorem login_three_shapes_witness :
    (∃ ptok, (login twoFaDemoState 0 "twofa" "pw2").1 = LoginReply.preAuth ptok)
    ∧ ∀ acc rt, (login twoFaDemoState 0 "twofa" "pw2").1
        ≠ LoginReply.tokens acc rt := by
  have h := login_three_shapes twoFaDemoState 0 "twofa" "pw2" twoFaDemoAccount
    (by decide) (by decide) (by decide) (by decide)
  exact h.1 rfl

/-- C9 counterexample: the client-side logout of useAuth.tsx does perform a
network request — at the default API base, a call whose fetch resolves still
has a non-empty list of network requests, refuting the claim that logout
performs none. -/
theorem logout_no_network_counterexample :
    ¬ Frontend.networkRequests
        (Frontend.logout none Frontend.FetchOutcome.ok) = [] := by
  decide

/-- C9 (amended): every call to the client-side logout sends exactly one
request to the auth logout endpoint, carrying no Authorization header and no
refresh token, its failure being swallowed; afterwards it unconditionally
clears the stored session, sets the user to null and navigates to /login,
whatever the request's outcome. -/
theorem logout_clears_session_after_request (env : Option String)
    (o : Frontend.FetchOutcome) :
    Frontend.networkRequests (Frontend.logout env o)
      = [Frontend.Effect.request
           ((env.getD "http://localhost:8000") ++ "/api/v1/auth/logout") none]
    ∧ ∃ pre, Frontend.logout env o
        = pre ++ [Frontend.Effect.clearSession, Frontend.Effect.setUser none,
                  Frontend.Effect.push "/login"] := by
  cases o
  · exact ⟨rfl, ⟨[Frontend.Effect.request
      ((env.getD "http://localhost:8000") ++ "/api/v1/auth/logout") none], rfl⟩⟩
  · exact ⟨rfl, ⟨[Frontend.Effect.request
      ((env.getD "http://localhost:8000") ++ "/api/v1/auth/logout") none,
      Frontend.Effect.consoleError "Logout error:"], rfl⟩⟩

/-- C10: getAuditLogs throws "Not authenticated" before issuing any request
when no token is stored; with a stored token it issues exactly one request
to the audit-logs endpoint carrying the bearer token, and a non-ok 401
response triggers a redirect to /login together with an "Unauthorized"
error. -/
theorem getAuditLogs_auth_gate (env : Option String) (page limit : Nat)
    (resp : Frontend.HttpResponse) :
    Frontend.getAuditLogs env none page limit resp
      = ([], Except.error "Not authenticated")
    ∧ (∀ tok, Frontend.networkRequests
        (Frontend.getAuditLogs env (some tok) page limit resp).1
          = [Frontend.Effect.request (Frontend.auditLogsUrl env page limit)
               (some ("Bearer " ++ tok))])
    ∧ (∀ tok, resp.ok = false → resp.status = 401 →
        Frontend.getAuditLogs env (some tok) page limit resp
          = ([Frontend.Effect.request (Frontend.auditLogsUrl env page limit)
                (some ("Bearer " ++ tok)),
              Frontend.Effect.redirect "/login"],
             Except.error "Unauthorized")) := by
  refine ⟨rfl, ?_, ?_⟩
  · intro tok
    simp only [Frontend.getAuditLogs]
    by_cases h1 : resp.ok = true
    · simp [h1, Frontend.networkRequests]
    · by_cases h2 : (resp.status == 401) = true
      · simp [h1, h2, Frontend.networkRequests]
      · simp [h1, h2, Frontend.networkRequests]
  · intro tok h1 h2
    simp only [Frontend.getAuditLogs]
    simp [h1, h2]

/-- The 401 response used in the audit-logs scenario. -/
def auditDemoResp : Frontend.HttpResponse :=
  { ok := false, status := 401, detail := none }

theorem getAuditLogs_auth_gate_witness :
    Frontend.getAuditLogs none none 1 20 auditDemoResp
      = ([], Except.error "Not authenticated")
    ∧ Frontend.getAuditLogs none (some "tkn") 1 20 auditDemoResp
        = ([Frontend.Effect.request (Frontend.auditLogsUrl none 1 20)
              (some ("Bearer " ++ "tkn")),
            Frontend.Effect.redirect "/login"],
           Except.error "Unauthorized") := by
  have h := getAuditLogs_auth_gate none 1 20 auditDemoResp
  exact ⟨h.1, h.2.2 "tkn" rfl rfl⟩

end SoulSense
